import Mathlib

/-!
Verification of the AI-orchestrated generation-and-review pipeline of the
osce-lesson-system repository.  Each definition is a shallow embedding of a
JavaScript function from the repository's source; machine floating point is
modelled with exact rationals (ℚ) and the JavaScript rounding primitives
`Math.round`, `Math.ceil` and `Number.toFixed(3)` are embedded explicitly.
-/

/-- JavaScript `Math.round`: round to nearest integer, ties toward +∞. -/
def jsRound (q : ℚ) : ℤ := ⌊q + 1/2⌋

/-- JavaScript `Math.ceil`. -/
def jsCeil (q : ℚ) : ℤ := ⌈q⌉

/-- JavaScript `Math.max(lo, Math.min(hi, x))` as used for score clamping. -/
def jsClamp (lo hi x : ℚ) : ℚ := max lo (min hi x)

/-- `parseFloat(x.toFixed(3))`: round to three decimal places
(ties away from zero; all scores here are nonnegative, so ties go up). -/
def round3 (q : ℚ) : ℚ := (jsRound (q * 1000) : ℚ) / 1000

/-- ASCII lower-casing of one character (the decision strings compared by the
review workflow are plain ASCII). -/
def lowerChar (c : Char) : Char :=
  if 65 ≤ c.toNat ∧ c.toNat ≤ 90 then Char.ofNat (c.toNat + 32) else c

/-- JavaScript `String.prototype.toLowerCase` on the ASCII strings in play. -/
def jsToLowerCase (s : String) : String := String.mk (s.data.map lowerChar)

/-- JavaScript `String.prototype.startsWith`. -/
def strStartsWith (s pre : String) : Bool := pre.data.isPrefixOf s.data

/-- JavaScript `s.substring(0, n)`. -/
def jsSubstring (s : String) (n : ℕ) : String := String.mk (s.data.take n)

namespace DifficultyEngine

/-- The known grade levels of `gradeDifficultyMap` (src/src/services/difficultyEngine.js).
An unknown grade level makes `calculateDynamicDifficulty` throw, so the claims
quantify over this enumeration. -/
inductive GradeLevel
  | UGY | PGY1 | PGY2 | R1 | R2 | R3 | R4 | R5
deriving DecidableEq, Repr

/-- `gradeDifficultyMap[g].complexity`. -/
def gradeComplexity : GradeLevel → ℚ
  | .UGY => 0.2
  | .PGY1 => 0.35
  | .PGY2 => 0.5
  | .R1 => 0.55
  | .R2 => 0.7
  | .R3 => 0.8
  | .R4 => 0.9
  | .R5 => 1.0

/-- The specialties that occur as keys of `specialtyModifiers`.  A request may
carry no specialty, or an unknown one; both skip the modifier step, so the
embedding uses `Option Specialty` with `none` covering those cases. -/
inductive Specialty
  | emergency | surgery | internalMed | pediatrics | obgyn | psychiatry | familyMed
deriving DecidableEq, Repr

/-- Mean of the per-specialty modifier set
(`Object.values(specialtyMod).reduce(...) / Object.keys(specialtyMod).length`). -/
def specialtyAvgModifier : Specialty → ℚ
  | .emergency => (1.2 + 1.3 + 1.2) / 3
  | .surgery => (1.3 + 1.2 + 1.3) / 3
  | .internalMed => (1.2 + 1.1 + 1.2) / 3
  | .pediatrics => (1.3 + 1.2 + 1.1) / 3
  | .obgyn => (1.2 + 1.3 + 1.1) / 3
  | .psychiatry => (1.4 + 1.3 + 1.2) / 3
  | .familyMed => (1.1 + 1.1 + 1.0) / 3

/-- Content types; `other` stands for any string not in `contentTypeDifficulty`,
for which the baseline-averaging step is skipped. -/
inductive ContentType
  | skill | examination | procedure | disease | other
deriving DecidableEq, Repr

/-- `contentTypeDifficulty[t].base`, when the content type is known. -/
def contentTypeBase : ContentType → Option ℚ
  | .skill => some 0.3
  | .examination => some 0.4
  | .procedure => some 0.6
  | .disease => some 0.7
  | .other => none

/-- User learning-history aggregate consumed by `calculateHistoryAdjustment`.
The JavaScript destructuring defaults (0.7 / 0.7 / 0 / 0.7) apply to absent
fields; the embedding takes the resolved values. -/
structure UserHistory where
  avgQualityScore : ℚ
  recentPerformance : ℚ
  totalLessonsCompleted : ℤ
  approvalRate : ℚ
deriving Repr

/-- `calculateHistoryAdjustment`: multiplier in [0.7, 1.3]. -/
def calculateHistoryAdjustment (h : UserHistory) : ℚ :=
  let a0 : ℚ := 0.8 + h.avgQualityScore * 0.4
  let a1 : ℚ := if h.recentPerformance > 0.85 then a0 * 1.1
    else if h.recentPerformance < 0.6 then a0 * 0.9 else a0
  let a2 : ℚ := if h.totalLessonsCompleted > 50 then a1 * 1.05
    else if h.totalLessonsCompleted < 10 then a1 * 0.95 else a1
  let a3 : ℚ := if h.approvalRate > 0.9 then a2 * 1.1
    else if h.approvalRate < 0.5 then a2 * 0.85 else a2
  jsClamp 0.7 1.3 a3

/-- Clinical importance levels; the JavaScript `switch` treats any other
string like `medium` (no multiplier). -/
inductive Importance
  | critical | high | medium | low
deriving DecidableEq, Repr

/-- Procedure complexity levels; any other string behaves like `medium`. -/
inductive Complexity
  | high | medium | low
deriving DecidableEq, Repr

/-- Knowledge-point context consumed by `calculateContextAdjustment`. -/
structure KnowledgeContext where
  nationalExamFrequency : ℚ
  clinicalImportance : Importance
  procedureComplexity : Complexity
  differentialDiagnosisCount : ℚ
deriving Repr

/-- `calculateContextAdjustment`: multiplier in [0.8, 1.2]. -/
def calculateContextAdjustment (k : KnowledgeContext) : ℚ :=
  let a0 : ℚ := if k.nationalExamFrequency > 80 then 1.1
    else if k.nationalExamFrequency < 30 then 0.95 else 1
  let a1 : ℚ := match k.clinicalImportance with
    | .critical => a0 * 1.15
    | .high => a0 * 1.1
    | .low => a0 * 0.9
    | .medium => a0
  let a2 : ℚ := match k.procedureComplexity with
    | .high => a1 * 1.2
    | .medium => a1 * 1.0
    | .low => a1 * 0.9
  let a3 : ℚ := if k.differentialDiagnosisCount > 5 then a2 * 1.1
    else if k.differentialDiagnosisCount < 2 then a2 * 0.95 else a2
  jsClamp 0.8 1.2 a3

/-- Named difficulty tiers of `getDifficultyRecommendation`. -/
inductive Tier
  | low | moderate | challenging | advanced
deriving DecidableEq, Repr

/-- `isGradeAppropriate`: static grade → allowed-tiers table. -/
def isGradeAppropriate (t : Tier) (g : GradeLevel) : Bool :=
  match g with
  | .UGY => t = .low ∨ t = .moderate
  | .PGY1 => t = .low ∨ t = .moderate ∨ t = .challenging
  | .PGY2 => t = .moderate ∨ t = .challenging
  | .R1 => t = .moderate ∨ t = .challenging
  | .R2 => t = .challenging ∨ t = .advanced
  | .R3 => t = .challenging ∨ t = .advanced
  | .R4 => t = .advanced
  | .R5 => t = .advanced

/-- Recommendation returned by `getDifficultyRecommendation`.  The fallback
branch (`return recommendations.moderate`) returns the raw tier config without
a `gradeAppropriate` field, hence the `Option Bool`. -/
structure Recommendation where
  tier : Tier
  gradeAppropriate : Option Bool
deriving DecidableEq, Repr

/-- `getDifficultyRecommendation`: first tier (in insertion order low,
moderate, challenging, advanced) whose inclusive score range contains the
score; otherwise the moderate config without a grade-appropriateness flag. -/
def getDifficultyRecommendation (score : ℚ) (g : GradeLevel) : Recommendation :=
  if 0 ≤ score ∧ score ≤ 0.3 then ⟨.low, some (isGradeAppropriate .low g)⟩
  else if 0.3 ≤ score ∧ score ≤ 0.6 then ⟨.moderate, some (isGradeAppropriate .moderate g)⟩
  else if 0.6 ≤ score ∧ score ≤ 0.8 then ⟨.challenging, some (isGradeAppropriate .challenging g)⟩
  else if 0.8 ≤ score ∧ score ≤ 1.0 then ⟨.advanced, some (isGradeAppropriate .advanced g)⟩
  else ⟨.moderate, none⟩

/-- Input of `calculateDynamicDifficulty`. -/
structure DifficultyParams where
  gradeLevel : GradeLevel
  specialty : Option Specialty
  contentType : ContentType
  baseDifficulty : ℚ
  userHistory : Option UserHistory
  knowledgeContext : Option KnowledgeContext

/-- The running `difficultyScore` of `calculateDynamicDifficulty` just before
the [0.1, 1.0] clamp at line 103: grade complexity, optional specialty
multiplier, content-type baseline average, normalized base-difficulty average,
then the optional history and knowledge-context multipliers. -/
def preClampScore (p : DifficultyParams) : ℚ :=
  let s0 : ℚ := gradeComplexity p.gradeLevel
  let s1 : ℚ := match p.specialty with
    | some sp => s0 * specialtyAvgModifier sp
    | none => s0
  let s2 : ℚ := match contentTypeBase p.contentType with
    | some b => (s1 + b) / 2
    | none => s1
  let s3 : ℚ := (s2 + p.baseDifficulty / 5) / 2
  let s4 : ℚ := match p.userHistory with
    | some h => s3 * calculateHistoryAdjustment h
    | none => s3
  match p.knowledgeContext with
  | some k => s4 * calculateContextAdjustment k
  | none => s4

/-- The clamped running score of `calculateDynamicDifficulty`
(the value of `difficultyScore` at line 103, after the [0.1, 1.0] clamp and
before the 3-decimal rounding of the reported field). -/
def runningScore (p : DifficultyParams) : ℚ :=
  jsClamp 0.1 1.0 (preClampScore p)

/-- The difficulty profile returned by `calculateDynamicDifficulty`
(`difficultyScore` is `parseFloat(difficultyScore.toFixed(3))`). -/
structure DifficultyResult where
  difficultyScore : ℚ
  difficultyLevel : ℤ
  recommendation : Recommendation
deriving DecidableEq, Repr

/-- `calculateDynamicDifficulty` (pure core; the thrown unknown-grade error is
excluded by the `GradeLevel` enumeration). -/
def calculateDynamicDifficulty (p : DifficultyParams) : DifficultyResult :=
  let s := runningScore p
  { difficultyScore := round3 s
    difficultyLevel := jsCeil (s * 5)
    recommendation := getDifficultyRecommendation s p.gradeLevel }

end DifficultyEngine

namespace LessonQualityAssessment

/-- Outcome of one category assessment request
(`assessCategory` in src/unnamed/part_000's sibling `lessonQualityAssessment`):
the AI call can throw, the returned content can fail `JSON.parse`, or it
parses to an object whose `score` field may be absent. -/
inductive CategoryOutcome
  | providerError
  | parseFailure
  | parsed (score : Option ℚ)
deriving DecidableEq, Repr

/-- Category score after `assessCategory` / `parseAIAssessment`:
a provider error yields the fixed default 0.6; an unparseable response yields
0.6; a parsed response yields `Math.max(0, Math.min(1, parsed.score || 0.6))`
(the JavaScript `||` also replaces a literal 0 by 0.6). -/
def categoryScore : CategoryOutcome → ℚ
  | .providerError => 0.6
  | .parseFailure => 0.6
  | .parsed s =>
      jsClamp 0 1 (match s with
        | none => 0.6
        | some v => if v = 0 then 0.6 else v)

/-- `getQualityGrade`: letter grade from the 0–1 weighted total. -/
def getQualityGrade (score : ℚ) : String :=
  if score ≥ 0.9 then "A (優秀)"
  else if score ≥ 0.8 then "B (良好)"
  else if score ≥ 0.7 then "C (及格)"
  else if score ≥ 0.6 then "D (待改進)"
  else "F (不合格)"

/-- The quality-assessment fields consumed by the review workflow:
`overallScore = Math.round(totalWeightedScore * 100)` (0–100 scale) and the
letter `grade` string. -/
structure Report where
  overallScore : ℤ
  grade : String
deriving DecidableEq, Repr

/-- Weighted total of `assessLessonQuality`: structure 30%, content 40%,
pedagogy 20%, grade-alignment 10%, each category score from its own
independently requested assessment. -/
def totalWeightedScore (oStructure oContent oPedagogy oGradeAlign : CategoryOutcome) : ℚ :=
  categoryScore oStructure * 0.3 + categoryScore oContent * 0.4 +
    categoryScore oPedagogy * 0.2 + categoryScore oGradeAlign * 0.1

/-- Scoring core of `assessLessonQuality` (src/unnamed/part_008 lines 92–100). -/
def assessLessonQuality (oStructure oContent oPedagogy oGradeAlign : CategoryOutcome) :
    Report :=
  let tw := totalWeightedScore oStructure oContent oPedagogy oGradeAlign
  { overallScore := jsRound (tw * 100), grade := getQualityGrade tw }

end LessonQualityAssessment

namespace MedicalValidator

/-- One validation dimension's entry as it appears in the combined
`validation` object.  JavaScript objects are duck-typed, so every field that
some entry may carry is an `Option`; prose-only fields (strengths,
improvements, suggestions, feedback, recommendations) are omitted because no
modelled consumer reads them. -/
structure DimensionReport where
  score : Option ℚ
  confidence : Option ℚ
  safetyIssues : Option (List String)
  errorMsg : Option String
deriving DecidableEq, Repr

/-- A per-dimension validator's return value: `success` tag plus data
(`parseValidationResponse` / `getDefaultValidationResult` shape). -/
structure SubResult where
  success : Bool
  data : DimensionReport
deriving DecidableEq, Repr

/-- `getDefaultValidationResult(type, score)`: the `defaults` table is keyed
by `medical_accuracy` / `clinical_relevance` / `pedagogical_quality`; any
other key falls back to the generic object with only `score` and an error
note. -/
def getDefaultValidationResult (typeKey : String) (score : ℚ) : SubResult :=
  if typeKey = "medical_accuracy" then
    { success := false
      data := { score := some score, confidence := some 0.3,
                safetyIssues := some [], errorMsg := none } }
  else if typeKey = "clinical_relevance" then
    { success := false
      data := { score := some score, confidence := none,
                safetyIssues := none, errorMsg := none } }
  else if typeKey = "pedagogical_quality" then
    { success := false
      data := { score := some score, confidence := none,
                safetyIssues := none, errorMsg := none } }
  else
    { success := false
      data := { score := some score, confidence := none,
                safetyIssues := none, errorMsg := some "驗證失敗" } }

/-- Outcome of one dimension's AI call and response parse:
the call can throw, the content can lack an extractable JSON block, or it
parses to a findings object. -/
inductive DimOutcome
  | providerError (msg : String)
  | unparseable
  | parsed (d : DimensionReport)
deriving DecidableEq, Repr

/-- `validateMedicalAccuracy`: a thrown AI call yields the dimension default
with score 0.5; an unparseable response yields the dimension default with
score 0.6 (via `parseValidationResponse`); a parsed response is returned with
`success = true`. -/
def validateMedicalAccuracy : DimOutcome → SubResult
  | .providerError _ => getDefaultValidationResult "medical_accuracy" 0.5
  | .unparseable => getDefaultValidationResult "medical_accuracy" 0.6
  | .parsed d => { success := true, data := d }

/-- `validateClinicalRelevance`: catch default score 0.6, parse default 0.6. -/
def validateClinicalRelevance : DimOutcome → SubResult
  | .providerError _ => getDefaultValidationResult "clinical_relevance" 0.6
  | .unparseable => getDefaultValidationResult "clinical_relevance" 0.6
  | .parsed d => { success := true, data := d }

/-- `validatePedagogicalQuality`: catch default score 0.7, parse default 0.6. -/
def validatePedagogicalQuality : DimOutcome → SubResult
  | .providerError _ => getDefaultValidationResult "pedagogical_quality" 0.7
  | .unparseable => getDefaultValidationResult "pedagogical_quality" 0.6
  | .parsed d => { success := true, data := d }

/-- `processValidationResult(result, type)`: the three validators catch all of
their own errors, so each settled promise is fulfilled; an unsuccessful value
is replaced by `getDefaultValidationResult(type, 0.6).data`, where `type` is
one of the short keys `accuracy` / `relevance` / `quality` — none of which is
a key of the defaults table. -/
def processValidationResult (r : SubResult) (typeKey : String) : DimensionReport :=
  if r.success then r.data else (getDefaultValidationResult typeKey 0.6).data

/-- The combined `validation` object of `validateMedicalContent`. -/
structure ValidationTriple where
  medicalAccuracy : DimensionReport
  clinicalRelevance : DimensionReport
  pedagogicalQuality : DimensionReport
deriving DecidableEq, Repr

/-- `MedicalValidator.calculateOverallScore`: weighted mean with weights
0.5 / 0.3 / 0.2 over the dimensions whose `score` field is defined;
0.5 when no dimension carries a score. -/
def calculateOverallScore (v : ValidationTriple) : ℚ :=
  let entries : List (Option ℚ × ℚ) :=
    [(v.medicalAccuracy.score, 0.5), (v.clinicalRelevance.score, 0.3),
     (v.pedagogicalQuality.score, 0.2)]
  let totalScore := entries.foldl
    (fun acc e => match e.1 with | some s => acc + s * e.2 | none => acc) 0
  let totalWeight := entries.foldl
    (fun acc e => match e.1 with | some _ => acc + e.2 | none => acc) 0
  if totalWeight > 0 then totalScore / totalWeight else 0.5

/-- Result object of `validateMedicalContent`.  Its literal has keys
`overallScore`, `validation`, `recommendations`, `warnings`, timing and
context — and no top-level `safetyIssues` key, which the embedding records as
an always-absent optional field. -/
structure Report where
  overallScore : ℚ
  validation : ValidationTriple
  safetyIssues : Option (List String)
deriving DecidableEq, Repr

/-- `validateMedicalContent`: runs the three dimension validators via
`Promise.allSettled` (each settles independently), combines their processed
results, and computes the weighted overall score. -/
def validateMedicalContent (oAccuracy oRelevance oQuality : DimOutcome) : Report :=
  let validation : ValidationTriple :=
    { medicalAccuracy := processValidationResult (validateMedicalAccuracy oAccuracy) "accuracy"
      clinicalRelevance := processValidationResult (validateClinicalRelevance oRelevance) "relevance"
      pedagogicalQuality := processValidationResult (validatePedagogicalQuality oQuality) "quality" }
  { overallScore := calculateOverallScore validation
    validation := validation
    safetyIssues := none }

end MedicalValidator

namespace ReviewWorkflow

/-- The review record fields touched by the modelled workflow steps
(`lesson_reviews` row; persistence is a single keyed record update). -/
structure ReviewRecord where
  status : String
  autoReviewError : Option String
  humanReviewerId : Option String
  humanReviewDecision : Option String
  humanReviewComments : Option String
  revisionNotes : Option String
deriving DecidableEq, Repr

/-- A fresh review record as created by `createReviewRecord`. -/
def freshRecord : ReviewRecord :=
  { status := "pending", autoReviewError := none, humanReviewerId := none,
    humanReviewDecision := none, humanReviewComments := none, revisionNotes := none }

/-- `ReviewWorkflow.calculateOverallScore`
(src/src/services/medicalValidator.js lines 880–889): medical weight 0.6,
quality weight 0.4, rounded to an integer.  `medicalValidation.overallScore`
is the weighted mean of 0–1 dimension scores, while
`qualityAssessment.overallScore` is on a 0–100 scale. -/
def calculateOverallScore (mv : MedicalValidator.Report)
    (qa : LessonQualityAssessment.Report) : ℤ :=
  jsRound (mv.overallScore * 0.6 + (qa.overallScore : ℚ) * 0.4)

/-- Outcome of `processAutoReviewResult`: decision string, target record
status, and the human-review flag. -/
structure AutoDecision where
  decision : String
  status : String
  humanReviewRequired : Bool
deriving DecidableEq, Repr

/-- `processAutoReviewResult` (lines 801–875): the REJECT conditions are
checked first, then the APPROVE conditions, otherwise HUMAN_REVIEW.  It reads
`medicalValidation.safetyIssues?.length || 0` (the top-level field, which
`validateMedicalContent` never sets) and divides `medicalValidation.overallScore`
by 100. -/
def processAutoReviewResult (overallScore : ℤ) (mv : MedicalValidator.Report)
    (qa : LessonQualityAssessment.Report) : AutoDecision :=
  let safetyIssuesCount : ℕ := (mv.safetyIssues.map List.length).getD 0
  let medicalAccuracy : ℚ := mv.overallScore / 100
  if (overallScore : ℚ) ≤ 50 ∨ medicalAccuracy ≤ 0.5 ∨ 3 ≤ safetyIssuesCount ∨
      strStartsWith qa.grade "F" = true then
    { decision := "REJECT", status := "rejected", humanReviewRequired := false }
  else if 85 ≤ (overallScore : ℚ) ∧ 0.8 ≤ medicalAccuracy ∧ safetyIssuesCount ≤ 0 ∧
      strStartsWith qa.grade "D" = false ∧ strStartsWith qa.grade "F" = false then
    { decision := "APPROVE", status := "approved", humanReviewRequired := false }
  else
    { decision := "HUMAN_REVIEW_REQUIRED", status := "human_review",
      humanReviewRequired := true }

/-- The bundle built by a successful `performAutoReview`. -/
structure AutoReviewData where
  medicalValidation : MedicalValidator.Report
  qualityAssessment : LessonQualityAssessment.Report
  overallScore : ℤ
deriving DecidableEq, Repr

/-- `performAutoReview` (lines 745–796): sets the record to AUTO_REVIEW,
awaits the two validation services (their joint outcome is the `outcome`
parameter: an exception from either stage rejects the pair), and on success
saves the results and computes the combined score.  On failure it marks the
record HUMAN_REVIEW with the error message recorded — and then rethrows the
error (`throw error` at line 794). -/
def performAutoReview
    (outcome : Except String (MedicalValidator.Report × LessonQualityAssessment.Report))
    (rec : ReviewRecord) : ReviewRecord × Except String AutoReviewData :=
  let rec1 : ReviewRecord := { rec with status := "auto_review" }
  match outcome with
  | .ok (mv, qa) =>
      (rec1, .ok { medicalValidation := mv, qualityAssessment := qa,
                   overallScore := calculateOverallScore mv qa })
  | .error e =>
      ({ rec1 with status := "human_review", autoReviewError := some e }, .error e)

/-- The projection of the review result returned to the caller. -/
structure ReviewOutcome where
  status : String
  decision : String
  humanReviewRequired : Bool
deriving DecidableEq, Repr

/-- `startReviewProcess` (lines 666–717): creates the record, runs the auto
review, processes its result and updates the final status.  Any error —
including a rethrown auto-review failure — is caught by the outer handler and
rethrown to the caller wrapped as a new error. -/
def startReviewProcess
    (outcome : Except String (MedicalValidator.Report × LessonQualityAssessment.Report)) :
    ReviewRecord × Except String ReviewOutcome :=
  let (rec1, r) := performAutoReview outcome freshRecord
  match r with
  | .error e => (rec1, .error ("審核流程失敗: " ++ e))
  | .ok a =>
      let d := processAutoReviewResult a.overallScore a.medicalValidation a.qualityAssessment
      ({ rec1 with status := d.status },
       .ok { status := d.status, decision := d.decision,
             humanReviewRequired := d.humanReviewRequired })

/-- A human reviewer's submission (`humanReviewData`). -/
structure HumanReviewData where
  decision : String
  comments : Option String
  reviewerId : Option String
  revisionNotes : Option String
deriving DecidableEq, Repr

/-- `processHumanReviewResult` (lines 1046–1091): the decision string is
lower-cased and mapped to the terminal status; an unrecognized decision throws
before `updateReviewRecord` runs, so the record is not modified on the error
path.  On success the record is updated and `{success, finalStatus, decision}`
is returned (here the updated record paired with the final status). -/
def processHumanReviewResult (rec : ReviewRecord) (d : HumanReviewData) :
    Except String (ReviewRecord × String) :=
  let dl := jsToLowerCase d.decision
  let finalize : String → ReviewRecord := fun st =>
    { rec with status := st, humanReviewerId := d.reviewerId,
               humanReviewDecision := some d.decision,
               humanReviewComments := d.comments,
               revisionNotes := d.revisionNotes }
  if dl = "approve" then .ok (finalize "approved", "approved")
  else if dl = "reject" then .ok (finalize "rejected", "rejected")
  else if dl = "revision" then .ok (finalize "revision_required", "revision_required")
  else .error ("處理人工審核結果失敗: 無效的人工審核決策: " ++ d.decision)

end ReviewWorkflow

namespace LessonGenerator

/-- One lesson section; prose-only fields (description, keyPoints,
assessmentCriteria) are omitted because no modelled consumer reads them. -/
structure LessonSection where
  name : String
  duration : ℚ
  tasks : List String
deriving DecidableEq, Repr

/-- The scenario block of a lesson artifact. -/
structure Scenario where
  setting : String
  patientInfo : String
  presentation : String
  materials : List String
deriving DecidableEq, Repr

/-- A lesson artifact as produced by the generation pipeline.  JavaScript
objects only carry `generationError` / `rawContent` when the fallback sets
them, embedded as a `Bool` defaulting to `false` and an `Option`. -/
structure Lesson where
  title : String
  objective : List String
  duration : ℚ
  scenario : Scenario
  sections : List LessonSection
  generationError : Bool
  rawContent : Option String
deriving DecidableEq, Repr

/-- The literal character `\x7b`. -/
def openBrace : Char := Char.ofNat 123

/-- The literal character `\x7d`. -/
def closeBrace : Char := Char.ofNat 125

/-- The greedy regex `content.match` of an embedded JSON block in
`repairJSONResponse`: it matches from the first opening brace to the last
closing brace, provided the latter comes after the former. -/
def extractJsonBlock (content : String) : Option String :=
  let cs := content.toList
  match cs.findIdx? (· = openBrace), (cs.reverse.findIdx? (· = closeBrace)) with
  | some i, some k =>
      let j := cs.length - 1 - k
      if i < j then some (String.mk ((cs.drop i).take (j - i + 1))) else none
  | _, _ => none

/-- `createFallbackContent`: the stub artifact synthesized when the model
output cannot be parsed at all; `rawContent` keeps the first 500 characters
of the raw response (`rawContent.substring(0, 500)`). -/
def createFallbackContent (rawContent : String) : Lesson :=
  { title := "教案生成中遇到問題"
    objective := ["請聯繫系統管理員"]
    duration := 30
    scenario :=
      { setting := "系統生成"
        patientInfo := jsSubstring rawContent 200 ++ "..."
        presentation := "內容解析失敗"
        materials := ["標準設備"] }
    sections := [{ name := "內容處理中", duration := 30, tasks := ["請稍後重試"] }]
    generationError := true
    rawContent := some (jsSubstring rawContent 500) }

/-- `repairJSONResponse` (src/src/services/lessonGenerator.js lines 390–406):
try to extract an embedded JSON block and parse it; on any failure synthesize
the fallback stub.  `parse` is the `JSON.parse` oracle — `none` models a
thrown parse error. -/
def repairJSONResponse (parse : String → Option Lesson) (content : String) : Lesson :=
  match extractJsonBlock content with
  | some block =>
      match parse block with
      | some l => l
      | none => createFallbackContent content
  | none => createFallbackContent content

/-- The parse-and-repair step of `generateLessonContent` (lines 289–307):
`JSON.parse` the raw response; on failure, repair. -/
def parseLessonResponse (parse : String → Option Lesson) (content : String) : Lesson :=
  match parse content with
  | some l => l
  | none => repairJSONResponse parse content

/-- `adjustTimeAllocation` (lines 529–547): when the section durations do not
already sum to the artifact's total duration, rescale each section duration
by `content.duration / totalSectionTime` and round to the nearest integer.
(For an empty or all-zero section list JavaScript produces NaN durations; the
claims only concern positive totals.) -/
def adjustTimeAllocation (content : Lesson) : Lesson :=
  let totalSectionTime := (content.sections.map (·.duration)).sum
  if totalSectionTime ≠ content.duration then
    { content with
      sections := content.sections.map fun s =>
        { s with duration := (jsRound (s.duration * (content.duration / totalSectionTime)) : ℚ) } }
  else content

end LessonGenerator

namespace AIService

/-- `modelConfigs[model].service` for the four registered models. -/
def modelService (model : String) : Option String :=
  if model = "gpt-4" then some "openai"
  else if model = "gpt-3.5-turbo" then some "openai"
  else if model = "claude-3-sonnet" then some "claude"
  else if model = "claude-3-haiku" then some "claude"
  else none

/-- `getFailoverModel` (src/src/services/aiService.js lines 263–271):
the static failover partner table. -/
def getFailoverModel (primaryModel : String) : Option String :=
  if primaryModel = "gpt-4" then some "gpt-3.5-turbo"
  else if primaryModel = "claude-3-sonnet" then some "claude-3-haiku"
  else if primaryModel = "gpt-3.5-turbo" then some "claude-3-haiku"
  else if primaryModel = "claude-3-haiku" then some "gpt-3.5-turbo"
  else none

/-- The two `callAI` option flags that drive failover: `useFailover`
(requested by the caller) and the internal `_isFailover` tag set on the retry. -/
structure CallOptions where
  useFailover : Bool
  isFailoverTagged : Bool
deriving DecidableEq, Repr

/-- `callAI` (lines 192–258) with mock mode off, instrumented with the list
of provider calls it makes (model name paired with the `_isFailover` tag of
that attempt).  `attempt` is the provider oracle: what a single call to each
model would do.  An unknown model name throws inside the same `try`, so it
takes the same failover path as a provider failure. -/
def callAI (attempt : String → Except String String) (model : String)
    (opts : CallOptions) : Except String String × List (String × Bool) :=
  let callResult : Except String String :=
    match modelService model with
    | none => .error ("Unknown AI model: " ++ model)
    | some _ => attempt model
  match callResult with
  | .ok c => (.ok c, [(model, opts.isFailoverTagged)])
  | .error e =>
      if hf : opts.useFailover = true ∧ opts.isFailoverTagged = false then
        match getFailoverModel model with
        | some fm =>
            let (r, calls) :=
              callAI attempt fm { useFailover := false, isFailoverTagged := true }
            (r, (model, opts.isFailoverTagged) :: calls)
        | none => (.error e, [(model, opts.isFailoverTagged)])
      else (.error e, [(model, opts.isFailoverTagged)])
termination_by (if opts.isFailoverTagged then 0 else 1)
decreasing_by simp [hf.2]

end AIService

namespace DifficultyEngine

/-- The spec's scenario input: grade UGY, content type disease, base
difficulty 1, no specialty, no user history, no knowledge context. -/
def specLowInput : DifficultyParams :=
  { gradeLevel := .UGY, specialty := none, contentType := .disease,
    baseDifficulty := 1, userHistory := none, knowledgeContext := none }

/-- An input whose running score 0.200025 rounds down to the reported score
0.2 while the level is derived from the unrounded value. -/
def roundingInput : DifficultyParams :=
  { gradeLevel := .UGY, specialty := none, contentType := .skill,
    baseDifficulty := 1,
    userHistory := some { avgQualityScore := 0.2225, recentPerformance := 0.7,
                          totalLessonsCompleted := 20, approvalRate := 0.7 },
    knowledgeContext := none }

end DifficultyEngine

/-- A parsed medical-accuracy findings object with a perfect score and no
safety issues. -/
def perfectAccuracyDim : MedicalValidator.DimensionReport :=
  { score := some 1, confidence := some 0.9, safetyIssues := some [], errorMsg := none }

/-- A parsed relevance/pedagogy findings object with a perfect score. -/
def perfectDim : MedicalValidator.DimensionReport :=
  { score := some 1, confidence := none, safetyIssues := none, errorMsg := none }

/-- The medical validation report for a lesson whose three dimension
validators all parse with score 1.0 and zero safety issues. -/
def mvPerfect : MedicalValidator.Report :=
  MedicalValidator.validateMedicalContent (.parsed perfectAccuracyDim)
    (.parsed perfectDim) (.parsed perfectDim)

/-- The quality assessment for a lesson whose four category assessments all
parse with score 1.0. -/
def qaPerfect : LessonQualityAssessment.Report :=
  LessonQualityAssessment.assessLessonQuality (.parsed (some 1)) (.parsed (some 1))
    (.parsed (some 1)) (.parsed (some 1))

/-- A parsed medical-accuracy findings object reporting five safety issues. -/
def safetyAccuracyDim : MedicalValidator.DimensionReport :=
  { score := some 0.9, confidence := some 0.9,
    safetyIssues := some ["s1", "s2", "s3", "s4", "s5"], errorMsg := none }

/-- The medical validation report when the accuracy validator reports five
safety issues. -/
def mvSafety : MedicalValidator.Report :=
  MedicalValidator.validateMedicalContent (.parsed safetyAccuracyDim)
    (.parsed perfectDim) (.parsed perfectDim)

/-- A lesson whose three 3-minute sections do not sum to its 10-minute total. -/
def unbalancedLesson : LessonGenerator.Lesson :=
  { title := "病例教案", objective := ["目標"], duration := 10,
    scenario := { setting := "臨床技能中心", patientInfo := "病人", presentation := "主訴",
                  materials := [] },
    sections := [{ name := "病史詢問", duration := 3, tasks := [] },
                 { name := "理學檢查", duration := 3, tasks := [] },
                 { name := "診斷推理", duration := 3, tasks := [] }],
    generationError := false, rawContent := none }

/-- A lesson whose three 7-minute sections do not sum to its 30-minute total. -/
def unbalancedLesson2 : LessonGenerator.Lesson :=
  { title := "病例教案", objective := ["目標"], duration := 30,
    scenario := { setting := "臨床技能中心", patientInfo := "病人", presentation := "主訴",
                  materials := [] },
    sections := [{ name := "病史詢問", duration := 7, tasks := [] },
                 { name := "理學檢查", duration := 7, tasks := [] },
                 { name := "診斷推理", duration := 7, tasks := [] }],
    generationError := false, rawContent := none }

lemma jsClamp_le_bounds (lo hi x : ℚ) (h : lo ≤ hi) :
    lo ≤ jsClamp lo hi x ∧ jsClamp lo hi x ≤ hi := by
  unfold jsClamp
  exact ⟨le_max_left _ _, max_le h (min_le_left _ _)⟩

lemma runningScore_bounds (p : DifficultyEngine.DifficultyParams) :
    0.1 ≤ DifficultyEngine.runningScore p ∧ DifficultyEngine.runningScore p ≤ 1 := by
  unfold DifficultyEngine.runningScore
  have h := jsClamp_le_bounds 0.1 1.0 (DifficultyEngine.preClampScore p) (by norm_num)
  exact ⟨h.1, le_trans h.2 (by norm_num)⟩

lemma round3_bounds {s : ℚ} (h1 : 0.1 ≤ s) (h2 : s ≤ 1) :
    0.1 ≤ round3 s ∧ round3 s ≤ 1 := by
  unfold round3 jsRound
  have hlo : (100 : ℤ) ≤ ⌊s * 1000 + 1/2⌋ := by
    rw [Int.le_floor]; push_cast; nlinarith
  have h4 : (⌊s * 1000 + 1/2⌋ : ℚ) < 1001 :=
    lt_of_le_of_lt (Int.floor_le _) (by nlinarith)
  have h5 : ⌊s * 1000 + 1/2⌋ < 1001 := by exact_mod_cast h4
  have hhi : ⌊s * 1000 + 1/2⌋ ≤ 1000 := by omega
  constructor
  · rw [le_div_iff₀ (by norm_num : (0:ℚ) < 1000)]
    calc (0.1 : ℚ) * 1000 = 100 := by norm_num
      _ ≤ (⌊s * 1000 + 1/2⌋ : ℚ) := by exact_mod_cast hlo
  · rw [div_le_one (by norm_num : (0:ℚ) < 1000)]
    exact_mod_cast hhi

lemma level_bounds {s : ℚ} (h1 : 0.1 ≤ s) (h2 : s ≤ 1) :
    1 ≤ jsCeil (s * 5) ∧ jsCeil (s * 5) ≤ 5 := by
  unfold jsCeil
  constructor
  · have : (0 : ℚ) < s * 5 := by nlinarith
    calc (1 : ℤ) = 0 + 1 := by ring
      _ ≤ ⌈s * 5⌉ := by
        have := Int.lt_ceil.mpr (by exact_mod_cast this : ((0:ℤ):ℚ) < s * 5)
        omega
  · exact Int.ceil_le.mpr (by push_cast; nlinarith)

lemma mvPerfect_overallScore : mvPerfect.overallScore = 1 := by
  simp [mvPerfect, MedicalValidator.validateMedicalContent,
    MedicalValidator.processValidationResult, MedicalValidator.validateMedicalAccuracy,
    MedicalValidator.validateClinicalRelevance, MedicalValidator.validatePedagogicalQuality,
    MedicalValidator.calculateOverallScore, perfectAccuracyDim, perfectDim]
  norm_num

lemma qaPerfect_overallScore : qaPerfect.overallScore = 100 := by
  simp [qaPerfect, LessonQualityAssessment.assessLessonQuality,
    LessonQualityAssessment.totalWeightedScore, LessonQualityAssessment.categoryScore,
    jsClamp, jsRound]
  norm_num [Int.floor_eq_iff]

lemma combinedPerfect_score :
    ReviewWorkflow.calculateOverallScore mvPerfect qaPerfect = 41 := by
  simp [ReviewWorkflow.calculateOverallScore, mvPerfect_overallScore,
    qaPerfect_overallScore, jsRound]
  norm_num [Int.floor_eq_iff]

/-- C1: claimed — the review's overall score equals
0.6·medicalAccuracy + 0.4·qualityScore with all three quantities on a common
scale.  The code's weights are 0.6/0.4, but the inputs are on different
scales: the medical validator's overall score is a weighted mean of 0–1
dimension scores (here equal to 1, its maximum), while the quality
assessment's overall score is on a 0–100 scale (here 100, its maximum);
combining them gives `Math.round(0.6·1 + 0.4·100) = 41`, not the maximum of
any common scale, and the 85/50 thresholds are then applied to this value. -/
theorem C1_mixed_scale_evaluation :
    mvPerfect.overallScore = 1 ∧ qaPerfect.overallScore = 100 ∧
    ReviewWorkflow.calculateOverallScore mvPerfect qaPerfect = 41 :=
  ⟨mvPerfect_overallScore, qaPerfect_overallScore, combinedPerfect_score⟩

/-- C2: claimed — the auto-review decision follows the REJECT/APPROVE/
HUMAN_REVIEW table with the safety-issue count reported by the
medical-accuracy validator.  At a perfect lesson (all dimension scores 1.0,
zero safety issues, quality grade A with score 100) the claimed table gives
APPROVE, but the code REJECTs: the combined score is 41 ≤ 50 and
`medicalAccuracy = 1/100 ≤ 0.5` because of the scale mismatch.  Moreover the
count the workflow reads is the absent top-level `safetyIssues` field (always
0), not the validator's reported list (here five issues). -/
theorem C2_decision_table_evaluation :
    ReviewWorkflow.processAutoReviewResult
        (ReviewWorkflow.calculateOverallScore mvPerfect qaPerfect) mvPerfect qaPerfect =
      { decision := "REJECT", status := "rejected", humanReviewRequired := false } ∧
    mvSafety.safetyIssues = none ∧
    mvSafety.validation.medicalAccuracy.safetyIssues = some ["s1", "s2", "s3", "s4", "s5"] := by
  refine ⟨?_, ?_, ?_⟩
  · rw [combinedPerfect_score]
    simp only [ReviewWorkflow.processAutoReviewResult]
    rw [if_pos (Or.inl (by norm_num))]
  · simp [mvSafety, MedicalValidator.validateMedicalContent]
  · simp [mvSafety, MedicalValidator.validateMedicalContent,
      MedicalValidator.processValidationResult, MedicalValidator.validateMedicalAccuracy,
      safetyAccuracyDim]

/-- C3: the claim says a structural auto-review failure is not propagated to
the caller.  Counterexample: when the validation stage throws "boom", the
review process returns a thrown error to the caller, not a review result. -/
theorem C3_counterexample :
    (ReviewWorkflow.startReviewProcess (.error "boom")).2 =
      Except.error "審核流程失敗: boom" := by
  simp [ReviewWorkflow.startReviewProcess, ReviewWorkflow.performAutoReview,
    ReviewWorkflow.freshRecord]

/-- C3 (amended): on a structural auto-review failure the record is indeed
forced to HUMAN_REVIEW with the error recorded on it, but the exception is
then rethrown: `performAutoReview` rethrows after updating the record and
`startReviewProcess` wraps the message and throws it to the caller. -/
theorem C3_amended (e : String) :
    (ReviewWorkflow.startReviewProcess (.error e)).1.status = "human_review" ∧
    (ReviewWorkflow.startReviewProcess (.error e)).1.autoReviewError = some e ∧
    (ReviewWorkflow.startReviewProcess (.error e)).2 =
      Except.error ("審核流程失敗: " ++ e) := by
  refine ⟨?_, ?_, ?_⟩ <;>
    simp [ReviewWorkflow.startReviewProcess, ReviewWorkflow.performAutoReview,
      ReviewWorkflow.freshRecord]

/-- C3 witness: the amended behavior at the concrete error "db offline". -/
theorem C3_witness :
    (ReviewWorkflow.startReviewProcess (.error "db offline")).1.status = "human_review" ∧
    (ReviewWorkflow.startReviewProcess (.error "db offline")).1.autoReviewError =
      some "db offline" ∧
    (ReviewWorkflow.startReviewProcess (.error "db offline")).2 =
      Except.error ("審核流程失敗: " ++ "db offline") :=
  C3_amended "db offline"

/-- C4: a model response that fails both the direct `JSON.parse` and the
extract-a-block-and-parse repair never throws from the parse-and-repair step:
the result is the stub artifact flagged `generationError := true` carrying the
first 500 characters of the raw response. -/
theorem C4_malformed_output_fallback (parse : String → Option LessonGenerator.Lesson)
    (content : String) (h1 : parse content = none)
    (h2 : (LessonGenerator.extractJsonBlock content).bind parse = none) :
    LessonGenerator.parseLessonResponse parse content =
      LessonGenerator.createFallbackContent content ∧
    (LessonGenerator.parseLessonResponse parse content).generationError = true ∧
    (LessonGenerator.parseLessonResponse parse content).rawContent =
      some (jsSubstring content 500) := by
  have hrep : LessonGenerator.repairJSONResponse parse content =
      LessonGenerator.createFallbackContent content := by
    unfold LessonGenerator.repairJSONResponse
    cases hx : LessonGenerator.extractJsonBlock content with
    | none => rfl
    | some b =>
        rw [hx] at h2
        simp only [Option.some_bind] at h2
        simp [h2]
  have hmain : LessonGenerator.parseLessonResponse parse content =
      LessonGenerator.createFallbackContent content := by
    unfold LessonGenerator.parseLessonResponse
    rw [h1, hrep]
  exact ⟨hmain, by rw [hmain]; rfl, by rw [hmain]; rfl⟩

/-- C4 witness: the fallback behavior on a brace-free refusal string with a
parser that accepts nothing. -/
theorem C4_witness :
    (LessonGenerator.parseLessonResponse (fun _ => none) "the model balked").generationError
        = true ∧
    (LessonGenerator.parseLessonResponse (fun _ => none) "the model balked").rawContent =
      some (jsSubstring "the model balked" 500) := by
  have h := C4_malformed_output_fallback (fun _ => none) "the model balked" rfl
    (by cases LessonGenerator.extractJsonBlock "the model balked" <;> rfl)
  exact ⟨h.2.1, h.2.2⟩

lemma validateMedicalAccuracy_catch_default :
    (MedicalValidator.validateMedicalAccuracy (.providerError "timeout")).data =
      { score := some 0.5, confidence := some 0.3, safetyIssues := some [],
        errorMsg := none } := by
  simp [MedicalValidator.validateMedicalAccuracy, MedicalValidator.getDefaultValidationResult]

/-- C5: the claim says a failing dimension is replaced by its fixed default
score with lowered confidence.  Counterexample: when the medical-accuracy
call throws, its catch default is score 0.5 with confidence 0.3 — but the
combine step (`processValidationResult` keyed by "accuracy", which is not a
key of the defaults table) discards it and stores the generic object with
score 0.6 and no confidence field at all. -/
theorem C5_counterexample :
    (MedicalValidator.validateMedicalAccuracy (.providerError "timeout")).data.score =
      some 0.5 ∧
    (MedicalValidator.validateMedicalAccuracy (.providerError "timeout")).data.confidence =
      some 0.3 ∧
    (MedicalValidator.validateMedicalContent (.providerError "timeout")
        (.parsed perfectDim) (.parsed perfectDim)).validation.medicalAccuracy =
      { score := some 0.6, confidence := none, safetyIssues := none,
        errorMsg := some "驗證失敗" } := by
  refine ⟨?_, ?_, ?_⟩
  · rw [validateMedicalAccuracy_catch_default]
  · rw [validateMedicalAccuracy_catch_default]
  · simp [MedicalValidator.validateMedicalContent, MedicalValidator.processValidationResult,
      MedicalValidator.validateMedicalAccuracy, MedicalValidator.getDefaultValidationResult]

/-- C5 (amended): each dimension that fails internally is replaced in the
combined report by the fixed generic default (score 0.6, an error note, and no
confidence value — the per-dimension defaults with lowered confidence are
constructed but discarded at the combine step); a parsed dimension's data is
passed through unchanged; and each dimension's entry in the combined report is
independent of the other two dimensions' outcomes, so one failure never
prevents the other two computed results from appearing. -/
theorem C5_degraded_validator_isolation (o1 o2 o3 : MedicalValidator.DimOutcome) :
    ((MedicalValidator.validateMedicalAccuracy o1).success = false →
      (MedicalValidator.validateMedicalContent o1 o2 o3).validation.medicalAccuracy =
        { score := some 0.6, confidence := none, safetyIssues := none,
          errorMsg := some "驗證失敗" }) ∧
    ((MedicalValidator.validateClinicalRelevance o2).success = false →
      (MedicalValidator.validateMedicalContent o1 o2 o3).validation.clinicalRelevance =
        { score := some 0.6, confidence := none, safetyIssues := none,
          errorMsg := some "驗證失敗" }) ∧
    ((MedicalValidator.validatePedagogicalQuality o3).success = false →
      (MedicalValidator.validateMedicalContent o1 o2 o3).validation.pedagogicalQuality =
        { score := some 0.6, confidence := none, safetyIssues := none,
          errorMsg := some "驗證失敗" }) ∧
    (∀ d, o1 = .parsed d →
      (MedicalValidator.validateMedicalContent o1 o2 o3).validation.medicalAccuracy = d) ∧
    (∀ d, o2 = .parsed d →
      (MedicalValidator.validateMedicalContent o1 o2 o3).validation.clinicalRelevance = d) ∧
    (∀ d, o3 = .parsed d →
      (MedicalValidator.validateMedicalContent o1 o2 o3).validation.pedagogicalQuality = d) ∧
    (∀ o1a o3a, (MedicalValidator.validateMedicalContent o1 o2 o3).validation.clinicalRelevance =
      (MedicalValidator.validateMedicalContent o1a o2 o3a).validation.clinicalRelevance) ∧
    (∀ o2a o3a, (MedicalValidator.validateMedicalContent o1 o2 o3).validation.medicalAccuracy =
      (MedicalValidator.validateMedicalContent o1 o2a o3a).validation.medicalAccuracy) ∧
    (∀ o1a o2a, (MedicalValidator.validateMedicalContent o1 o2 o3).validation.pedagogicalQuality =
      (MedicalValidator.validateMedicalContent o1a o2a o3).validation.pedagogicalQuality) := by
  refine ⟨?_, ?_, ?_, ?_, ?_, ?_, ?_, ?_, ?_⟩
  · intro h
    simp [MedicalValidator.validateMedicalContent, MedicalValidator.processValidationResult, h,
      MedicalValidator.getDefaultValidationResult]
  · intro h
    simp [MedicalValidator.validateMedicalContent, MedicalValidator.processValidationResult, h,
      MedicalValidator.getDefaultValidationResult]
  · intro h
    simp [MedicalValidator.validateMedicalContent, MedicalValidator.processValidationResult, h,
      MedicalValidator.getDefaultValidationResult]
  · intro d h
    subst h
    simp [MedicalValidator.validateMedicalContent, MedicalValidator.processValidationResult,
      MedicalValidator.validateMedicalAccuracy]
  · intro d h
    subst h
    simp [MedicalValidator.validateMedicalContent, MedicalValidator.processValidationResult,
      MedicalValidator.validateClinicalRelevance]
  · intro d h
    subst h
    simp [MedicalValidator.validateMedicalContent, MedicalValidator.processValidationResult,
      MedicalValidator.validatePedagogicalQuality]
  · intro o1a o3a
    simp [MedicalValidator.validateMedicalContent]
  · intro o2a o3a
    simp [MedicalValidator.validateMedicalContent]
  · intro o1a o2a
    simp [MedicalValidator.validateMedicalContent]

/-- C5 witness: a provider error on the accuracy dimension yields the generic
default entry while the parsed relevance result is preserved unchanged. -/
theorem C5_witness :
    (MedicalValidator.validateMedicalContent (.providerError "x")
        (.parsed perfectDim) (.parsed perfectDim)).validation.medicalAccuracy =
      { score := some 0.6, confidence := none, safetyIssues := none,
        errorMsg := some "驗證失敗" } ∧
    (MedicalValidator.validateMedicalContent (.providerError "x")
        (.parsed perfectDim) (.parsed perfectDim)).validation.clinicalRelevance =
      perfectDim := by
  constructor
  · exact (C5_degraded_validator_isolation (.providerError "x") (.parsed perfectDim)
      (.parsed perfectDim)).1
      (by simp [MedicalValidator.validateMedicalAccuracy,
        MedicalValidator.getDefaultValidationResult])
  · exact (C5_degraded_validator_isolation (.providerError "x") (.parsed perfectDim)
      (.parsed perfectDim)).2.2.2.2.1 perfectDim rfl

/-- C6: the claim says the profile satisfies `level = ceil(score * 5)`.
Counterexample: at `roundingInput` the unrounded running score is 0.200025,
so the level is `ceil(1.000125) = 2`, but the profile's reported score is the
3-decimal rounding 0.2, and `ceil(0.2 * 5) = 1 ≠ 2` — the published equation
fails for the profile's own fields. -/
theorem C6_counterexample :
    (DifficultyEngine.calculateDynamicDifficulty
        DifficultyEngine.roundingInput).difficultyScore = 0.2 ∧
    (DifficultyEngine.calculateDynamicDifficulty
        DifficultyEngine.roundingInput).difficultyLevel = 2 ∧
    jsCeil ((DifficultyEngine.calculateDynamicDifficulty
        DifficultyEngine.roundingInput).difficultyScore * 5) = 1 := by
  have hrun : DifficultyEngine.runningScore DifficultyEngine.roundingInput = 0.200025 := by
    simp [DifficultyEngine.runningScore, DifficultyEngine.preClampScore,
      DifficultyEngine.roundingInput, DifficultyEngine.gradeComplexity,
      DifficultyEngine.contentTypeBase, DifficultyEngine.calculateHistoryAdjustment, jsClamp]
    norm_num
  refine ⟨?_, ?_, ?_⟩
  · simp [DifficultyEngine.calculateDynamicDifficulty, hrun, round3, jsRound]
    norm_num [Int.floor_eq_iff]
  · simp [DifficultyEngine.calculateDynamicDifficulty, hrun, jsCeil]
    norm_num [Int.ceil_eq_iff]
  · simp [DifficultyEngine.calculateDynamicDifficulty, hrun, round3, jsRound, jsCeil]
    norm_num [Int.floor_eq_iff, Int.ceil_eq_iff]

/-- C6 (amended): for every input over the known grade levels, the profile's
score lies in [0.1, 1.0] and the level lies in [1, 5], where the level is
`ceil(s * 5)` for the clamped running score `s` — the profile's score field is
`s` rounded to three decimals, so `ceil(score * 5)` may differ from the level
by that rounding. -/
theorem C6_profile_bounds (p : DifficultyEngine.DifficultyParams) :
    0.1 ≤ (DifficultyEngine.calculateDynamicDifficulty p).difficultyScore ∧
    (DifficultyEngine.calculateDynamicDifficulty p).difficultyScore ≤ 1 ∧
    (DifficultyEngine.calculateDynamicDifficulty p).difficultyLevel =
      jsCeil (DifficultyEngine.runningScore p * 5) ∧
    1 ≤ (DifficultyEngine.calculateDynamicDifficulty p).difficultyLevel ∧
    (DifficultyEngine.calculateDynamicDifficulty p).difficultyLevel ≤ 5 := by
  obtain ⟨hl, hh⟩ := runningScore_bounds p
  obtain ⟨rl, rh⟩ := round3_bounds hl hh
  obtain ⟨ll, lh⟩ := level_bounds hl hh
  exact ⟨rl, rh, rfl, ll, lh⟩

/-- C6 witness: the amended bounds at the concrete input of the spec's
low-difficulty scenario. -/
theorem C6_witness :
    0.1 ≤ (DifficultyEngine.calculateDynamicDifficulty
        DifficultyEngine.specLowInput).difficultyScore ∧
    (DifficultyEngine.calculateDynamicDifficulty
        DifficultyEngine.specLowInput).difficultyScore ≤ 1 ∧
    (DifficultyEngine.calculateDynamicDifficulty
        DifficultyEngine.specLowInput).difficultyLevel =
      jsCeil (DifficultyEngine.runningScore DifficultyEngine.specLowInput * 5) ∧
    1 ≤ (DifficultyEngine.calculateDynamicDifficulty
        DifficultyEngine.specLowInput).difficultyLevel ∧
    (DifficultyEngine.calculateDynamicDifficulty
        DifficultyEngine.specLowInput).difficultyLevel ≤ 5 :=
  C6_profile_bounds DifficultyEngine.specLowInput

/-- C7: the claim says grade UGY, content type disease, base difficulty 1
yields tier "low".  Counterexample: the running score is
((0.2 + 0.7)/2 + 1/5)/2 = 0.325, which falls in the moderate range
[0.3, 0.6], not the low range [0, 0.3]. -/
theorem C7_counterexample :
    (DifficultyEngine.calculateDynamicDifficulty
        DifficultyEngine.specLowInput).recommendation.tier ≠ DifficultyEngine.Tier.low := by
  have h : (DifficultyEngine.calculateDynamicDifficulty
      DifficultyEngine.specLowInput).recommendation.tier = DifficultyEngine.Tier.moderate := by
    simp [DifficultyEngine.calculateDynamicDifficulty, DifficultyEngine.runningScore,
      DifficultyEngine.preClampScore, DifficultyEngine.specLowInput,
      DifficultyEngine.gradeComplexity, DifficultyEngine.contentTypeBase, jsClamp,
      DifficultyEngine.getDifficultyRecommendation]
    norm_num
  simp [h]

/-- C7 (amended): at grade UGY, content type disease, base difficulty 1 the
resulting tier is "moderate" — and `gradeAppropriate` is indeed true, since
the moderate tier is allowed for UGY. -/
theorem C7_scenario_moderate :
    (DifficultyEngine.calculateDynamicDifficulty
        DifficultyEngine.specLowInput).recommendation =
      { tier := DifficultyEngine.Tier.moderate, gradeAppropriate := some true } := by
  simp [DifficultyEngine.calculateDynamicDifficulty, DifficultyEngine.runningScore,
    DifficultyEngine.preClampScore, DifficultyEngine.specLowInput,
    DifficultyEngine.gradeComplexity, DifficultyEngine.contentTypeBase, jsClamp,
    DifficultyEngine.getDifficultyRecommendation, DifficultyEngine.isGradeAppropriate]
  norm_num

lemma abs_jsRound_sub_le (x : ℚ) : |(jsRound x : ℚ) - x| ≤ 1/2 := by
  unfold jsRound
  rw [abs_le]
  constructor
  · have h := Int.sub_one_lt_floor (x + 1/2)
    push_cast at h ⊢
    linarith
  · have h := Int.floor_le (x + 1/2)
    push_cast at h ⊢
    linarith

lemma sum_jsRound_close (xs : List ℚ) :
    |((xs.map (fun x => (jsRound x : ℚ))).sum - xs.sum)| ≤ (xs.length : ℚ) / 2 := by
  induction xs with
  | nil => simp
  | cons a tl ih =>
      simp only [List.map_cons, List.sum_cons, List.length_cons]
      have key : ((jsRound a : ℚ) + (tl.map (fun x => (jsRound x : ℚ))).sum) - (a + tl.sum) =
          ((jsRound a : ℚ) - a) + ((tl.map (fun x => (jsRound x : ℚ))).sum - tl.sum) := by
        ring
      rw [key]
      calc |((jsRound a : ℚ) - a) + ((tl.map (fun x => (jsRound x : ℚ))).sum - tl.sum)| ≤
            |(jsRound a : ℚ) - a| + |(tl.map (fun x => (jsRound x : ℚ))).sum - tl.sum| :=
              abs_add _ _
        _ ≤ 1/2 + (tl.length : ℚ) / 2 := add_le_add (abs_jsRound_sub_le a) ih
        _ = ((tl.length : ℚ) + 1) / 2 := by ring
        _ = ((tl.length + 1 : ℕ) : ℚ) / 2 := by push_cast; ring

lemma sum_map_mul_const (xs : List ℚ) (c : ℚ) :
    (xs.map (fun x => x * c)).sum = xs.sum * c := by
  induction xs with
  | nil => simp
  | cons a tl ih => simp [ih]; ring

/-- C8: the claim says post-processing rescales section durations so they sum
exactly to the total duration.  Counterexample: three 3-minute sections with a
10-minute total are each rescaled to `Math.round(3 · 10/9) = 3`, and the new
durations still sum to 9 ≠ 10. -/
theorem C8_counterexample :
    ((LessonGenerator.adjustTimeAllocation unbalancedLesson).sections.map
        (fun s => s.duration)).sum ≠ unbalancedLesson.duration := by
  have h : ((LessonGenerator.adjustTimeAllocation unbalancedLesson).sections.map
      (fun s => s.duration)).sum = 9 := by
    simp [LessonGenerator.adjustTimeAllocation, unbalancedLesson, jsRound]
    norm_num [Int.floor_eq_iff]
  rw [h]
  simp [unbalancedLesson]

/-- C8 (amended): when the section durations have a positive sum different
from the total duration, each duration becomes
`Math.round(duration · total/sum)`, and the rescaled durations sum to the
requested total only up to a rounding error of at most half the number of
sections (exact equality fails in general). -/
theorem C8_rescale_rounding (content : LessonGenerator.Lesson)
    (hpos : 0 < (content.sections.map (fun s => s.duration)).sum)
    (hne : (content.sections.map (fun s => s.duration)).sum ≠ content.duration) :
    ((LessonGenerator.adjustTimeAllocation content).sections.map (fun s => s.duration)) =
      content.sections.map (fun s =>
        (jsRound (s.duration *
          (content.duration / (content.sections.map (fun s => s.duration)).sum)) : ℚ)) ∧
    |((LessonGenerator.adjustTimeAllocation content).sections.map (fun s => s.duration)).sum -
        content.duration| ≤ (content.sections.length : ℚ) / 2 := by
  set T := (content.sections.map (fun s => s.duration)).sum with hT
  set c := content.duration / T with hc
  have hmap : ((LessonGenerator.adjustTimeAllocation content).sections.map
      (fun s => s.duration)) =
      content.sections.map (fun s => (jsRound (s.duration * c) : ℚ)) := by
    unfold LessonGenerator.adjustTimeAllocation
    rw [← hT]
    rw [if_pos hne]
    simp [List.map_map, Function.comp]
  refine ⟨hmap, ?_⟩
  rw [hmap]
  have hcomp : content.sections.map (fun s => (jsRound (s.duration * c) : ℚ)) =
      ((content.sections.map (fun s => s.duration)).map (fun d => d * c)).map
        (fun y => (jsRound y : ℚ)) := by
    simp [List.map_map, Function.comp]
  have hDsum : ((content.sections.map (fun s => s.duration)).map (fun d => d * c)).sum =
      content.duration := by
    rw [sum_map_mul_const, ← hT, hc]
    field_simp
  rw [hcomp, ← hDsum]
  have hlen : (((content.sections.map (fun s => s.duration)).map (fun d => d * c)).length : ℚ) =
      (content.sections.length : ℚ) := by simp
  calc |(((content.sections.map (fun s => s.duration)).map (fun d => d * c)).map
          (fun y => (jsRound y : ℚ))).sum -
        ((content.sections.map (fun s => s.duration)).map (fun d => d * c)).sum| ≤
      (((content.sections.map (fun s => s.duration)).map (fun d => d * c)).length : ℚ) / 2 :=
        sum_jsRound_close _
    _ = (content.sections.length : ℚ) / 2 := by rw [hlen]

/-- C8 witness: the rounding bound at a concrete unbalanced lesson
(three 7-minute sections, 30-minute total). -/
theorem C8_witness :
    |((LessonGenerator.adjustTimeAllocation unbalancedLesson2).sections.map
        (fun s => s.duration)).sum - unbalancedLesson2.duration| ≤
      (unbalancedLesson2.sections.length : ℚ) / 2 :=
  (C8_rescale_rounding unbalancedLesson2
    (by simp [unbalancedLesson2]; norm_num)
    (by simp [unbalancedLesson2]; norm_num)).2

lemma getFailoverModel_known {m fm : String}
    (h : AIService.getFailoverModel m = some fm) :
    ∃ sv, AIService.modelService fm = some sv := by
  unfold AIService.getFailoverModel at h
  split_ifs at h with h1 h2 h3 h4
  · obtain rfl := Option.some.inj h
    exact ⟨"openai", by simp [AIService.modelService]⟩
  · obtain rfl := Option.some.inj h
    exact ⟨"claude", by simp [AIService.modelService]⟩
  · obtain rfl := Option.some.inj h
    exact ⟨"claude", by simp [AIService.modelService]⟩
  · obtain rfl := Option.some.inj h
    exact ⟨"openai", by simp [AIService.modelService]⟩

lemma getFailoverModel_domain {m fm : String}
    (h : AIService.getFailoverModel m = some fm) :
    ∃ sv, AIService.modelService m = some sv := by
  unfold AIService.getFailoverModel at h
  split_ifs at h with h1 h2 h3 h4
  · exact ⟨"openai", by rw [h1]; simp [AIService.modelService]⟩
  · exact ⟨"claude", by rw [h2]; simp [AIService.modelService]⟩
  · exact ⟨"openai", by rw [h3]; simp [AIService.modelService]⟩
  · exact ⟨"claude", by rw [h4]; simp [AIService.modelService]⟩

/-- C9: when `useFailover` is set and the primary call to a registered model
fails, the gateway makes exactly two provider calls — the failed primary and
one retry against the statically paired failover model, that retry tagged as a
failover — and the overall outcome is exactly the retry's outcome: the retry
never fails over again, whatever it does. -/
theorem C9_failover_exactly_once (attempt : String → Except String String)
    (model fm e : String) (opts : AIService.CallOptions)
    (huse : opts.useFailover = true) (htag : opts.isFailoverTagged = false)
    (hfail : attempt model = .error e)
    (hfm : AIService.getFailoverModel model = some fm) :
    (AIService.callAI attempt model opts).2 = [(model, false), (fm, true)] ∧
    (AIService.callAI attempt model opts).1 = attempt fm := by
  obtain ⟨sv, hsv⟩ := getFailoverModel_known hfm
  obtain ⟨s0, hs0⟩ := getFailoverModel_domain hfm
  have hinner : AIService.callAI attempt fm
      { useFailover := false, isFailoverTagged := true } = (attempt fm, [(fm, true)]) := by
    rw [AIService.callAI]
    rw [hsv]
    cases hat : attempt fm with
    | ok c => simp
    | error e2 => simp
  rw [AIService.callAI]
  rw [hs0]
  simp only [hfail, hfm, huse, htag, and_self, dite_true, hinner]

/-- C9 witness: with every provider down, a `gpt-4` call with failover makes
exactly the primary call and one tagged retry against `gpt-3.5-turbo`. -/
theorem C9_witness :
    AIService.callAI (fun _ => .error "provider down") "gpt-4"
        { useFailover := true, isFailoverTagged := false } =
      (.error "provider down", [("gpt-4", false), ("gpt-3.5-turbo", true)]) := by
  have h := C9_failover_exactly_once (fun _ => .error "provider down") "gpt-4"
    "gpt-3.5-turbo" "provider down" { useFailover := true, isFailoverTagged := false }
    rfl rfl rfl rfl
  rw [Prod.ext_iff]
  exact ⟨h.2, h.1⟩

/-- C10: a human-review decision equal (case-insensitively) to approve,
reject or revision updates the record to exactly the corresponding terminal
status with the reviewer fields recorded; any other decision string throws
before `updateReviewRecord` runs, so the error result carries no record
update and the stored record is untouched. -/
theorem C10_human_decision_mapping (rec : ReviewWorkflow.ReviewRecord)
    (d : ReviewWorkflow.HumanReviewData) :
    (jsToLowerCase d.decision = "approve" →
      ReviewWorkflow.processHumanReviewResult rec d =
        .ok ({ rec with
               status := "approved", humanReviewerId := d.reviewerId,
               humanReviewDecision := some d.decision, humanReviewComments := d.comments,
               revisionNotes := d.revisionNotes }, "approved")) ∧
    (jsToLowerCase d.decision = "reject" →
      ReviewWorkflow.processHumanReviewResult rec d =
        .ok ({ rec with
               status := "rejected", humanReviewerId := d.reviewerId,
               humanReviewDecision := some d.decision, humanReviewComments := d.comments,
               revisionNotes := d.revisionNotes }, "rejected")) ∧
    (jsToLowerCase d.decision = "revision" →
      ReviewWorkflow.processHumanReviewResult rec d =
        .ok ({ rec with
               status := "revision_required", humanReviewerId := d.reviewerId,
               humanReviewDecision := some d.decision, humanReviewComments := d.comments,
               revisionNotes := d.revisionNotes }, "revision_required")) ∧
    (jsToLowerCase d.decision ≠ "approve" → jsToLowerCase d.decision ≠ "reject" →
      jsToLowerCase d.decision ≠ "revision" →
      ReviewWorkflow.processHumanReviewResult rec d =
        .error ("處理人工審核結果失敗: 無效的人工審核決策: " ++ d.decision)) := by
  refine ⟨?_, ?_, ?_, ?_⟩
  · intro h
    simp [ReviewWorkflow.processHumanReviewResult, h]
  · intro h
    simp [ReviewWorkflow.processHumanReviewResult, h]
  · intro h
    simp [ReviewWorkflow.processHumanReviewResult, h]
  · intro h1 h2 h3
    simp [ReviewWorkflow.processHumanReviewResult, h1, h2, h3]

/-- C10 witness: the upper-case decision "APPROVE" maps to the approved
terminal status with the reviewer fields recorded. -/
theorem C10_witness :
    ReviewWorkflow.processHumanReviewResult ReviewWorkflow.freshRecord
        { decision := "APPROVE", comments := some "內容正確", reviewerId := some "r-17",
          revisionNotes := none } =
      .ok ({ ReviewWorkflow.freshRecord with
             status := "approved",
             humanReviewerId := some "r-17", humanReviewDecision := some "APPROVE",
             humanReviewComments := some "內容正確", revisionNotes := none }, "approved") :=
  (C10_human_decision_mapping ReviewWorkflow.freshRecord
    { decision := "APPROVE", comments := some "內容正確", reviewerId := some "r-17",
      revisionNotes := none }).1 (by decide)
